import Mathlib

/-!
Verification of the Aquifer database synchronization tool (src/aquifer.py)
against its natural-language specification.

Shallow embedding notes.  The script drives one DB connection per adapter
instance (self.cursor); both the "source" introspection and the "target"
introspection are issued on that same connection.  We model the observable
database state reachable through that connection as `DBState`: the current
definition text of each table, view and procedure, the index catalog, and
the append-only sync_log table (most recent record first, matching
ORDER BY timestamp DESC LIMIT 1 reads).  Read-only introspection queries
(SHOW CREATE TABLE, SHOW TABLES LIKE, SHOW FULL TABLES, SELECT ... FROM
sync_log, SHOW INDEXES, pg_get_tabledef, pg_indexes) are modelled as pure
reads of this state.  A real cursor.execute of a DDL statement is modelled
at its call site by the corresponding state change plus the statement text
appended to an executed-statements trace.  test_sql_statement wraps the
candidate statement in a transaction that is always rolled back; per the
spec it has no observable side effect, so it is modelled as a boolean
oracle `Env.valid` on statement texts.

The methods get_view_definition and get_procedure_definition are called by
the adapters but defined nowhere in the repository; the spec treats
vendor metadata extraction as an external adapter capability returning an
optional definition text.  They are modelled as capabilities in `Env`
returning `Except PyErr (Option String)`: calling an undefined method in
Python raises AttributeError, which is not a vendor database error, so the
error type distinguishes vendor errors (caught by the blanket per-vendor
`except MySQLError` handlers) from other exceptions (which propagate).
-/

deriving instance DecidableEq for Except

/-- Python exceptions, split by whether the vendor-specific `except`
clauses of the adapters catch them. `vendor` stands for MySQLError,
PGError, ODBCError, OracleError; `other` stands for everything else
(AttributeError, TypeError, OSError, ...). -/
inductive PyErr where
  | vendor (msg : String)
  | other (msg : String)
deriving Repr, DecidableEq

/-- One row of the sync_log audit table, as inserted by log_sync_action. -/
structure SyncRow where
  object_type : String
  object_name : String
  action : String
  source_code_hash : String
  sync_direction : String
  original_state : Option String
  new_state : Option String
  rollback_action : String
deriving Repr, DecidableEq

/-- One row of a vendor index catalog for a table.  `key_name` and
`column_name` are the columns MySQLSync reads from SHOW INDEXES
(index[2] and index[4]); `indexdef` is the stored CREATE INDEX statement
PostgreSQLSync reads from pg_indexes; `is_primary` is the ground truth of
whether the row describes the index backing a primary key (in MySQL such
a row has key_name PRIMARY, in PostgreSQL pg_indexes still lists it). -/
structure IndexRow where
  key_name : String
  column_name : String
  is_primary : Bool
  indexdef : String
deriving Repr, DecidableEq

/-- The observable database state behind one adapter connection. -/
structure DBState where
  tables : List (String × String)
  views : List (String × String)
  procs : List (String × String)
  indexes : List (String × IndexRow)
  syncLog : List SyncRow
deriving Repr, DecidableEq

/-- Environment of one adapter instance: the dry-run validation oracle
(test_sql_statement) and the two metadata-extraction capabilities the
script calls but never defines. -/
structure Env where
  valid : String → Bool
  viewDef : String → Except PyErr (Option String)
  procDef : String → Except PyErr (Option String)

/-- Definition lookup in a name-keyed association list (the model of
introspection queries such as SHOW CREATE TABLE / SHOW CREATE VIEW). -/
def lookupDef (l : List (String × String)) (n : String) : Option String :=
  (l.find? (fun p => p.1 == n)).map (fun p => p.2)

/-- Effect of a DROP ... IF EXISTS statement on a name-keyed catalog. -/
def removeDef (l : List (String × String)) (n : String) : List (String × String) :=
  l.filter (fun p => p.1 != n)

/-- Effect of executing a CREATE statement carrying definition text `d`
for object `n`: afterwards introspection on `n` returns exactly `d`. -/
def setDef (l : List (String × String)) (n d : String) : List (String × String) :=
  (n, d) :: removeDef l n

/-- log_sync_action: INSERT INTO sync_log ... (append-only; the list is
kept most recent first, so an insert prepends). -/
def log_sync_action (s : DBState) (object_type object_name action source_code_hash
    sync_direction : String) (original_state new_state : Option String)
    (rollback_action : String) : DBState :=
  { s with syncLog :=
      { object_type := object_type, object_name := object_name, action := action,
        source_code_hash := source_code_hash, sync_direction := sync_direction,
        original_state := original_state, new_state := new_state,
        rollback_action := rollback_action } :: s.syncLog }

namespace MySQLSync

/-- MySQLSync.synchronize_table (src/aquifer.py lines 115-156).
original_state is fetched with SHOW CREATE TABLE on the connection, the
existence check with SHOW TABLES LIKE on the same connection, and the
target state again with the identical SHOW CREATE TABLE; all three are
reads of the same `DBState`.  Executed DDL statements are returned in
order in the second component.  Where the code would pass a None
statement to test_sql_statement or cursor.execute, the model performs no
execution and writes no record (the validation call cannot succeed on a
null statement). -/
def synchronize_table (env : Env) (table : String) (alter_sync : Bool)
    (source_code_hash : String) (create_on_target : Bool) (s : DBState) :
    DBState × List String :=
  let original_state := lookupDef s.tables table
  let target_exists := (lookupDef s.tables table).isSome
  if !target_exists then
    if create_on_target then
      match original_state with
      | some stmt =>
        if env.valid stmt then
          let s1 := { s with tables := setDef s.tables table stmt }
          (log_sync_action s1 "table" table "create" source_code_hash
            "source_to_target" none (some stmt) "drop", [stmt])
        else (s, [])
      | none => (s, [])
    else (s, [])
  else
    let target_state := lookupDef s.tables table
    if original_state ≠ target_state then
      if alter_sync then (s, [])
      else
        let s1 := { s with tables := removeDef s.tables table }
        match original_state with
        | some stmt =>
          if env.valid stmt then
            let s2 := { s1 with tables := setDef s1.tables table stmt }
            (log_sync_action s2 "table" table "sync" source_code_hash
              "source_to_target" target_state (some stmt) "drop",
             ["DROP TABLE IF EXISTS " ++ table, stmt])
          else (s1, ["DROP TABLE IF EXISTS " ++ table])
        | none => (s1, ["DROP TABLE IF EXISTS " ++ table])
    else (s, [])

/-- MySQLSync.synchronize_view (src/aquifer.py lines 158-190).
source_definition comes from the get_view_definition capability (a method
the repository never defines: in Python the call raises AttributeError,
modelled as the capability returning a non-vendor error, which the
`except MySQLError` clause does not catch).  Note the `return` statement
sits inside the `not target_exists and create_on_target` branch: when the
target view is absent and create_on_target is false, control falls
through to the divergence comparison. -/
def synchronize_view (env : Env) (view_name : String) (alter_sync : Bool)
    (source_code_hash : String) (create_on_target : Bool) (s : DBState) :
    Except PyErr (DBState × List String) :=
  match env.viewDef view_name with
  | Except.error (PyErr.vendor _) => Except.ok (s, [])
  | Except.error e => Except.error e
  | Except.ok source_definition =>
    let original_state := lookupDef s.views view_name
    let target_exists := (lookupDef s.views view_name).isSome
    if !target_exists && create_on_target then
      match source_definition with
      | some stmt =>
        if env.valid stmt then
          let s1 := { s with views := setDef s.views view_name stmt }
          Except.ok (log_sync_action s1 "view" view_name "create" source_code_hash
            "source_to_target" original_state (some stmt) "drop", [stmt])
        else Except.ok (s, [])
      | none => Except.ok (s, [])
    else
      if source_definition ≠ original_state then
        let s1 := { s with views := removeDef s.views view_name }
        match source_definition with
        | some stmt =>
          if env.valid stmt then
            let s2 := { s1 with views := setDef s1.views view_name stmt }
            Except.ok (log_sync_action s2 "view" view_name "sync" source_code_hash
              "source_to_target" original_state (some stmt) "drop",
             ["DROP VIEW IF EXISTS " ++ view_name, stmt])
          else Except.ok (s1, ["DROP VIEW IF EXISTS " ++ view_name])
        | none => Except.ok (s1, ["DROP VIEW IF EXISTS " ++ view_name])
      else Except.ok (s, [])

/-- MySQLSync.synchronize_procedure (src/aquifer.py lines 192-228).
The creation guard is `not target_exists or create_on_target`: an absent
procedure is created even with create_on_target = false, and an existing
procedure is re-created whenever create_on_target = true.  The target
definition in the divergence branch is fetched by a second call to the
same get_procedure_definition capability. -/
def synchronize_procedure (env : Env) (procedure_name : String) (alter_sync : Bool)
    (source_code_hash : String) (create_on_target : Bool) (s : DBState) :
    Except PyErr (DBState × List String) :=
  match env.procDef procedure_name with
  | Except.error (PyErr.vendor _) => Except.ok (s, [])
  | Except.error e => Except.error e
  | Except.ok source_definition =>
    let target_exists := (lookupDef s.procs procedure_name).isSome
    if !target_exists || create_on_target then
      match source_definition with
      | some stmt =>
        if env.valid stmt then
          let s1 := { s with procs := setDef s.procs procedure_name stmt }
          Except.ok (log_sync_action s1 "procedure" procedure_name "create"
            source_code_hash "source_to_target" none (some stmt) "drop", [stmt])
        else Except.ok (s, [])
      | none => Except.ok (s, [])
    else
      match env.procDef procedure_name with
      | Except.error (PyErr.vendor _) => Except.ok (s, [])
      | Except.error e => Except.error e
      | Except.ok target_definition =>
        if source_definition ≠ target_definition then
          let s1 := { s with procs := removeDef s.procs procedure_name }
          match source_definition with
          | some stmt =>
            if env.valid stmt then
              let s2 := { s1 with procs := setDef s1.procs procedure_name stmt }
              Except.ok (log_sync_action s2 "procedure" procedure_name "sync"
                source_code_hash "source_to_target" target_definition (some stmt) "drop",
               ["DROP PROCEDURE IF EXISTS " ++ procedure_name, stmt])
            else Except.ok (s1, ["DROP PROCEDURE IF EXISTS " ++ procedure_name])
          | none => Except.ok (s1, ["DROP PROCEDURE IF EXISTS " ++ procedure_name])
        else Except.ok (s, [])

/-- The loop body of MySQLSync.synchronize_all_views: the enumeration is
fetched once up front and each view is processed in turn; an exception
escaping synchronize_view terminates the loop with the state reached so
far. -/
def sync_views_loop (env : Env) (alter_sync : Bool) (source_code_hash : String)
    (create_on_target : Bool) : List String → DBState → DBState × Option PyErr
  | [], s => (s, none)
  | v :: rest, s =>
    match synchronize_view env v alter_sync source_code_hash create_on_target s with
    | Except.ok (s1, _) => sync_views_loop env alter_sync source_code_hash create_on_target rest s1
    | Except.error e => (s, some e)

/-- MySQLSync.synchronize_all_views (src/aquifer.py lines 240-248): SHOW
FULL TABLES enumerates the view names, then each is synchronized; the
surrounding try/except catches only MySQLError, so a vendor error ending
the loop is logged and swallowed while any other exception propagates to
the caller. -/
def synchronize_all_views (env : Env) (alter_sync : Bool) (source_code_hash : String)
    (create_on_target : Bool) (s : DBState) : DBState × Option PyErr :=
  match sync_views_loop env alter_sync source_code_hash create_on_target
      (s.views.map (fun p => p.1)) s with
  | (s1, none) => (s1, none)
  | (s1, some (PyErr.vendor _)) => (s1, none)
  | (s1, some e) => (s1, some e)

/-- MySQLSync.synchronize_indexes (src/aquifer.py lines 260-271): SHOW
INDEXES rows for the table are enumerated; rows whose key name is PRIMARY
are skipped; for each other row a CREATE INDEX statement is built,
validated, and executed when validation passes.  The returned list is the
executed statements in order. -/
def synchronize_indexes (env : Env) (table : String) (s : DBState) : List String :=
  ((s.indexes.filter (fun p => p.1 == table)).map (fun p => p.2)).filterMap
    (fun index =>
      if index.key_name ≠ "PRIMARY" then
        if env.valid ("CREATE INDEX " ++ index.key_name ++ " ON " ++ table ++
            " (" ++ index.column_name ++ ")") then
          some ("CREATE INDEX " ++ index.key_name ++ " ON " ++ table ++
            " (" ++ index.column_name ++ ")")
        else none
      else none)

/-- MySQLSync.rollback_table (src/aquifer.py lines 273-289): reads the
latest sync_log row for the table and dispatches on its action: create
leads to DROP TABLE IF EXISTS; the recreate branch requires action to be
the string alter together with a truthy original_state; anything else
(including action sync) only logs a warning.  No sync_log row is ever
written. -/
def rollback_table (env : Env) (table_name : String) (s : DBState) :
    DBState × List String :=
  match s.syncLog.find? (fun r => r.object_type == "table" && r.object_name == table_name) with
  | some r =>
    if r.action == "create" then
      ({ s with tables := removeDef s.tables table_name },
       ["DROP TABLE IF EXISTS " ++ table_name])
    else if r.action == "alter" then
      match r.original_state with
      | some os =>
        if os != "" && env.valid os then
          ({ s with tables := setDef s.tables table_name os }, [os])
        else (s, [])
      | none => (s, [])
    else (s, [])
  | none => (s, [])

/-- MySQLSync.rollback_view (src/aquifer.py lines 291-307): as
rollback_table, but the recreate branch fires on action sync. -/
def rollback_view (env : Env) (view_name : String) (s : DBState) :
    DBState × List String :=
  match s.syncLog.find? (fun r => r.object_type == "view" && r.object_name == view_name) with
  | some r =>
    if r.action == "create" then
      ({ s with views := removeDef s.views view_name },
       ["DROP VIEW IF EXISTS " ++ view_name])
    else if r.action == "sync" then
      match r.original_state with
      | some os =>
        if os != "" && env.valid os then
          ({ s with views := setDef s.views view_name os }, [os])
        else (s, [])
      | none => (s, [])
    else (s, [])
  | none => (s, [])

end MySQLSync

namespace PostgreSQLSync

/-- PostgreSQLSync.synchronize_table (src/aquifer.py lines 361-402):
structurally identical to the MySQL variant; the source fetch
(pg_get_tabledef), the existence check (to_regclass) and the target
fetch (the identical pg_get_tabledef call) are all issued on the one
connection and are reads of the same state. -/
def synchronize_table (env : Env) (table : String) (alter_sync : Bool)
    (source_code_hash : String) (create_on_target : Bool) (s : DBState) :
    DBState × List String :=
  let original_state := lookupDef s.tables table
  let target_exists := (lookupDef s.tables table).isSome
  if !target_exists then
    if create_on_target then
      match original_state with
      | some stmt =>
        if env.valid stmt then
          let s1 := { s with tables := setDef s.tables table stmt }
          (log_sync_action s1 "table" table "create" source_code_hash
            "source_to_target" none (some stmt) "drop", [stmt])
        else (s, [])
      | none => (s, [])
    else (s, [])
  else
    let target_state := lookupDef s.tables table
    if original_state ≠ target_state then
      if alter_sync then (s, [])
      else
        let s1 := { s with tables := removeDef s.tables table }
        match original_state with
        | some stmt =>
          if env.valid stmt then
            let s2 := { s1 with tables := setDef s1.tables table stmt }
            (log_sync_action s2 "table" table "sync" source_code_hash
              "source_to_target" target_state (some stmt) "drop",
             ["DROP TABLE IF EXISTS " ++ table, stmt])
          else (s1, ["DROP TABLE IF EXISTS " ++ table])
        | none => (s1, ["DROP TABLE IF EXISTS " ++ table])
    else (s, [])

/-- PostgreSQLSync.synchronize_indexes (src/aquifer.py lines 506-520):
every pg_indexes row for the table is enumerated with no filtering, and
the stored indexdef statement is validated and executed.  pg_indexes
lists the indexes backing primary-key constraints as ordinary rows. -/
def synchronize_indexes (env : Env) (table : String) (s : DBState) : List String :=
  ((s.indexes.filter (fun p => p.1 == table)).map (fun p => p.2)).filterMap
    (fun index => if env.valid index.indexdef then some index.indexdef else none)

end PostgreSQLSync

/-- The required-configuration flags of main (argparse namespace): a
missing flag is none. -/
structure Args where
  source_config : Option String
  source_db_type : Option String
  target_configs : Option String
deriving Repr, DecidableEq

/-- How the process terminates: a plain return from main gives exit
status zero; an exception propagating out of main makes the interpreter
print a traceback and exit non-zero. -/
inductive MainOutcome where
  | exitZero
  | uncaughtException (e : PyErr)
deriving Repr, DecidableEq

/-- Whether a `MainOutcome` is a non-zero process exit status. -/
def MainOutcome.isNonZero : MainOutcome → Bool
  | MainOutcome.exitZero => false
  | MainOutcome.uncaughtException _ => true

/-- main (src/aquifer.py lines 1240-1302), reduced to its exit behavior.
When any of source_config, source_db_type, target_configs is missing,
main logs an error and returns — a plain return, not a non-zero exit.
Otherwise the rest of main runs with no surrounding try/except: `body`
abstracts that remainder (opening the config files, connect() on each
target — which re-raises connection errors — and the sync loops); any
exception it raises propagates out of main uncaught. -/
def main_outcome (args : Args) (body : Except PyErr Unit) : MainOutcome :=
  if !(args.source_config.isSome && args.source_db_type.isSome &&
       args.target_configs.isSome) then
    MainOutcome.exitZero
  else
    match body with
    | Except.ok _ => MainOutcome.exitZero
    | Except.error e => MainOutcome.uncaughtException e

/-- Validation oracle that accepts every statement, with total, succeeding
metadata capabilities; used by concrete evaluations. -/
def env1 : Env :=
  { valid := fun _ => true,
    viewDef := fun _ => Except.ok none,
    procDef := fun _ => Except.ok none }

/-- The latest sync_log row for table t1 after an apply with action sync:
original_state holds the pre-sync target definition. -/
def log1 : SyncRow :=
  { object_type := "table", object_name := "t1", action := "sync",
    source_code_hash := "9a0364b9e99bb480dd25e1f0284c8555",
    sync_direction := "source_to_target",
    original_state := some "CREATE TABLE t1 (id INT)",
    new_state := some "CREATE TABLE t1 (id INT, extra INT)",
    rollback_action := "drop" }

/-- Target state after the sync that produced log1: t1 now carries the
new definition, and the audit trail records the original one. -/
def s1db : DBState :=
  { tables := [("t1", "CREATE TABLE t1 (id INT, extra INT)")],
    views := [], procs := [], indexes := [], syncLog := [log1] }

/-- Claim C1: rollback_table dispatches its recreate branch on the action
string alter, which no writer in the script ever records, while
synchronize_table records the action string sync; so invoking rollback
for a table whose latest audit record was written with action sync hits
the no-rollback-action warning branch: nothing is validated, nothing is
executed, and the stored original_state is not restored.  At the failing
input s1db the definition of t1 stays the post-sync text, not the
recorded original_state. -/
theorem C1_rollback_table_sync_record_is_noop :
    MySQLSync.rollback_table env1 "t1" s1db = (s1db, []) ∧
    lookupDef s1db.tables "t1" ≠ log1.original_state := by
  decide

/-- Claim C3: both table fetches in synchronize_table are the identical
introspection query on the one connection, so for an existing table the
comparison never detects drift: the MySQL and PostgreSQL variants leave
the state untouched, execute no statement, and write no audit record. -/
theorem C3_existing_table_sync_is_noop (env : Env) (table : String)
    (alter_sync : Bool) (source_code_hash : String) (create_on_target : Bool)
    (s : DBState) (d : String) (h : lookupDef s.tables table = some d) :
    MySQLSync.synchronize_table env table alter_sync source_code_hash
      create_on_target s = (s, []) ∧
    PostgreSQLSync.synchronize_table env table alter_sync source_code_hash
      create_on_target s = (s, []) := by
  constructor <;>
    simp [MySQLSync.synchronize_table, PostgreSQLSync.synchronize_table, h]

/-- Existing table t1 with both flags set: the sync call is a no-op. -/
def s3db : DBState :=
  { tables := [("t1", "CREATE TABLE t1 (id INT)")],
    views := [], procs := [], indexes := [], syncLog := [] }

/-- Witness for C3 at a concrete existing table. -/
theorem C3_witness :
    MySQLSync.synchronize_table env1 "t1" true "h" true s3db = (s3db, []) ∧
    PostgreSQLSync.synchronize_table env1 "t1" true "h" true s3db = (s3db, []) :=
  C3_existing_table_sync_is_noop env1 "t1" true "h" true s3db
    "CREATE TABLE t1 (id INT)" (by decide)

/-- Claim C10: when the latest audit record for a table has action
create, rollback_table executes the drop primitive (DROP TABLE IF
EXISTS) and appends nothing to sync_log; when no record exists for the
table, rollback_table performs no mutation and returns normally after
its warning. -/
theorem C10_rollback_create_drop_and_no_history (env : Env)
    (table_name : String) (s : DBState) :
    (∀ r, s.syncLog.find?
        (fun q => q.object_type == "table" && q.object_name == table_name) = some r →
      r.action = "create" →
      MySQLSync.rollback_table env table_name s =
        ({ s with tables := removeDef s.tables table_name },
         ["DROP TABLE IF EXISTS " ++ table_name]) ∧
      (MySQLSync.rollback_table env table_name s).1.syncLog = s.syncLog) ∧
    (s.syncLog.find?
        (fun q => q.object_type == "table" && q.object_name == table_name) = none →
      MySQLSync.rollback_table env table_name s = (s, [])) := by
  constructor
  · intro r hfind hact
    constructor <;> simp [MySQLSync.rollback_table, hfind, hact]
  · intro hfind
    simp [MySQLSync.rollback_table, hfind]

/-- Audit row recording the creation of table t1. -/
def log10 : SyncRow :=
  { object_type := "table", object_name := "t1", action := "create",
    source_code_hash := "h", sync_direction := "source_to_target",
    original_state := none,
    new_state := some "CREATE TABLE t1 (id INT)",
    rollback_action := "drop" }

/-- State whose only audit row is the creation of t1. -/
def s10db : DBState :=
  { tables := [("t1", "CREATE TABLE t1 (id INT)")],
    views := [], procs := [], indexes := [], syncLog := [log10] }

/-- Witness for C10: rollback after a create drops t1 and leaves the log
alone; rollback of a table with no history leaves everything alone. -/
theorem C10_witness :
    (MySQLSync.rollback_table env1 "t1" s10db =
      ({ s10db with tables := removeDef s10db.tables "t1" },
       ["DROP TABLE IF EXISTS " ++ "t1"]) ∧
     (MySQLSync.rollback_table env1 "t1" s10db).1.syncLog = s10db.syncLog) ∧
    MySQLSync.rollback_table env1 "t2" s10db = (s10db, []) :=
  ⟨(C10_rollback_create_drop_and_no_history env1 "t1" s10db).1 log10
      (by decide) rfl,
   (C10_rollback_create_drop_and_no_history env1 "t2" s10db).2 (by decide)⟩

/-- Rejecting validator: every dry run fails; the view capability reports
a source text for v1 that differs from the target text. -/
def env2 : Env :=
  { valid := fun _ => false,
    viewDef := fun v =>
      if v = "v1" then Except.ok (some "CREATE VIEW v1 AS SELECT 2")
      else Except.ok (some "CREATE VIEW v9 AS SELECT 9"),
    procDef := fun _ => Except.ok none }

/-- Target with a divergent view v1. -/
def s2db : DBState :=
  { tables := [], views := [("v1", "CREATE VIEW v1 AS SELECT 1")],
    procs := [], indexes := [], syncLog := [] }

/-- Claim C2 counterexample: for the divergent view v1, synchronize_view
executes DROP VIEW IF EXISTS v1 even though the validator rejects every
statement (so the drop was never gated on validation), and after the
ValidationFailed outcome the target has been mutated: v1 is gone. -/
theorem C2_counterexample :
    MySQLSync.synchronize_view env2 "v1" false "h" false s2db =
      Except.ok ({ s2db with views := [] }, ["DROP VIEW IF EXISTS v1"]) ∧
    env2.valid "DROP VIEW IF EXISTS v1" = false ∧
    lookupDef s2db.views "v1" = some "CREATE VIEW v1 AS SELECT 1" ∧
    lookupDef ({ s2db with views := [] } : DBState).views "v1" = none := by
  decide

/-- Claim C2 as amended: the create or recreate statement is validated
before execution — every statement synchronize_view executes other than
the unconditional drop has passed validation, and in the absent-object
create path a failed validation leaves the state untouched; the drop of
an existing divergent view, however, is executed without validation, so
a failed validation in the replace path leaves the view already
dropped. -/
theorem C2_create_statements_validated (env : Env) (v : String) (a : Bool)
    (hsh : String) (c : Bool) (s : DBState) :
    (∀ s1 tr, MySQLSync.synchronize_view env v a hsh c s = Except.ok (s1, tr) →
      ∀ stmt ∈ tr, stmt = "DROP VIEW IF EXISTS " ++ v ∨ env.valid stmt = true) ∧
    (∀ stmt, lookupDef s.views v = none → env.viewDef v = Except.ok (some stmt) →
      env.valid stmt = false →
      MySQLSync.synchronize_view env v a hsh true s = Except.ok (s, [])) := by
  constructor
  · intro s1 tr hok stmt hmem
    unfold MySQLSync.synchronize_view at hok
    split at hok
    · injection hok with hp
      cases hp
      simp at hmem
    · exact absurd hok (by simp)
    · rename_i sd hvd
      dsimp only at hok
      split at hok
      · split at hok
        · rename_i stmt0
          split at hok
          · rename_i hval
            injection hok with hp
            cases hp
            simp at hmem
            subst hmem
            exact Or.inr hval
          · injection hok with hp
            cases hp
            simp at hmem
        · injection hok with hp
          cases hp
          simp at hmem
      · split at hok
        · split at hok
          · rename_i stmt0
            split at hok
            · rename_i hval
              injection hok with hp
              cases hp
              simp at hmem
              rcases hmem with hmem | hmem
              · exact Or.inl hmem
              · subst hmem
                exact Or.inr hval
            · injection hok with hp
              cases hp
              simp at hmem
              exact Or.inl hmem
          · injection hok with hp
            cases hp
            simp at hmem
            exact Or.inl hmem
        · injection hok with hp
          cases hp
          simp at hmem
  · intro stmt habs hvd hval
    simp [MySQLSync.synchronize_view, hvd, habs, hval]

/-- Witness for C2 at concrete inputs: in the divergent run from the
counterexample state the non-drop obligation holds for the executed drop
statement, and for the absent view v9 whose source text the rejecting
validator refuses, the create path leaves the state untouched. -/
theorem C2_witness :
    ("DROP VIEW IF EXISTS v1" = "DROP VIEW IF EXISTS " ++ "v1" ∨
      env2.valid "DROP VIEW IF EXISTS v1" = true) ∧
    MySQLSync.synchronize_view env2 "v9" false "h" true s2db =
      Except.ok (s2db, []) :=
  ⟨(C2_create_statements_validated env2 "v1" false "h" false s2db).1
      ({ s2db with views := [] }) ["DROP VIEW IF EXISTS v1"] (by decide)
      "DROP VIEW IF EXISTS v1" (by decide),
   (C2_create_statements_validated env2 "v9" false "h" true s2db).2
      "CREATE VIEW v9 AS SELECT 9" (by decide) (by decide) (by decide)⟩

/-- Accepting validator; the view capability always reports the same
source text. -/
def env4 : Env :=
  { valid := fun _ => true,
    viewDef := fun _ => Except.ok (some "CREATE VIEW v1 AS SELECT 1"),
    procDef := fun _ => Except.ok none }

/-- Empty target: no objects, no audit rows. -/
def s4db : DBState :=
  { tables := [], views := [], procs := [], indexes := [], syncLog := [] }

/-- The sync audit row the C4 counterexample run writes. -/
def log4 : SyncRow :=
  { object_type := "view", object_name := "v1", action := "sync",
    source_code_hash := "h", sync_direction := "source_to_target",
    original_state := none,
    new_state := some "CREATE VIEW v1 AS SELECT 1",
    rollback_action := "drop" }

/-- Claim C4 counterexample: view v1 is absent on the target and
create_on_target is false, yet synchronize_view is no no-op: the missing
early return lets control fall through to the divergence comparison,
which executes a DROP VIEW statement and the CREATE statement and writes
a sync audit row. -/
theorem C4_counterexample :
    s4db.syncLog = [] ∧
    lookupDef s4db.views "v1" = none ∧
    MySQLSync.synchronize_view env4 "v1" false "h" false s4db =
      Except.ok
        ({ s4db with views := [("v1", "CREATE VIEW v1 AS SELECT 1")],
                     syncLog := [log4] },
         ["DROP VIEW IF EXISTS v1", "CREATE VIEW v1 AS SELECT 1"]) := by
  decide

/-- Claim C4 as amended: for tables the claim holds — with the target
table absent and create_on_target false, synchronize_table executes no
DDL statement and writes no audit record (read-only introspection is
still issued on the connection).  For views the absent-object case falls
through to the divergence path, which can drop, recreate and write a
sync record; procedures are created regardless of create_on_target. -/
theorem C4_absent_table_no_create_is_noop (env : Env) (table : String)
    (alter_sync : Bool) (source_code_hash : String) (s : DBState)
    (habs : lookupDef s.tables table = none) :
    MySQLSync.synchronize_table env table alter_sync source_code_hash false s =
      (s, []) := by
  simp [MySQLSync.synchronize_table, habs]

/-- Witness for the amended C4 at a concrete absent table. -/
theorem C4_witness :
    MySQLSync.synchronize_table env4 "t1" false "h" false s4db = (s4db, []) :=
  C4_absent_table_no_create_is_noop env4 "t1" false "h" s4db (by decide)

/-- Accepting validator; the procedure capability reports exactly the
text already on the target. -/
def env5 : Env :=
  { valid := fun _ => true,
    viewDef := fun _ => Except.ok none,
    procDef := fun _ => Except.ok (some "CREATE PROCEDURE p1 () SELECT 1") }

/-- Target whose procedure p1 is byte-identical to the source text. -/
def s5db : DBState :=
  { tables := [], views := [],
    procs := [("p1", "CREATE PROCEDURE p1 () SELECT 1")],
    indexes := [], syncLog := [] }

/-- The create audit row the C5 counterexample run writes. -/
def log5 : SyncRow :=
  { object_type := "procedure", object_name := "p1", action := "create",
    source_code_hash := "h", sync_direction := "source_to_target",
    original_state := none,
    new_state := some "CREATE PROCEDURE p1 () SELECT 1",
    rollback_action := "drop" }

/-- Claim C5 counterexample: procedure p1 exists with a definition
byte-identical to the source text, yet with create_on_target true the
guard `not target_exists or create_on_target` routes into the creation
branch: the statement is executed and a create audit row is written,
contradicting the no-op-regardless-of-flags claim. -/
theorem C5_counterexample :
    lookupDef s5db.procs "p1" = some "CREATE PROCEDURE p1 () SELECT 1" ∧
    env5.procDef "p1" = Except.ok (some "CREATE PROCEDURE p1 () SELECT 1") ∧
    s5db.syncLog = [] ∧
    MySQLSync.synchronize_procedure env5 "p1" false "h" true s5db =
      Except.ok ({ s5db with syncLog := [log5] },
        ["CREATE PROCEDURE p1 () SELECT 1"]) := by
  decide

/-- Claim C5 as amended: identical source and target definition texts
give a no-op with no audit row for tables and views under every flag
combination, and for procedures only when create_on_target is false;
with create_on_target true an identical procedure is re-created and a
create audit row is written. -/
theorem C5_identical_is_noop (env : Env) (s : DBState) :
    (∀ t d a hsh c, lookupDef s.tables t = some d →
      MySQLSync.synchronize_table env t a hsh c s = (s, [])) ∧
    (∀ v d a hsh c, env.viewDef v = Except.ok (some d) →
      lookupDef s.views v = some d →
      MySQLSync.synchronize_view env v a hsh c s = Except.ok (s, [])) ∧
    (∀ p d a hsh, env.procDef p = Except.ok (some d) →
      lookupDef s.procs p = some d →
      MySQLSync.synchronize_procedure env p a hsh false s = Except.ok (s, [])) := by
  refine ⟨?_, ?_, ?_⟩
  · intro t d a hsh c h
    simp [MySQLSync.synchronize_table, h]
  · intro v d a hsh c hvd h
    simp [MySQLSync.synchronize_view, hvd, h]
  · intro p d a hsh hpd h
    simp [MySQLSync.synchronize_procedure, hpd, h]

/-- Target carrying one of each object kind, each byte-identical to what
the capabilities report. -/
def s5w : DBState :=
  { tables := [("t1", "CREATE TABLE t1 (id INT)")],
    views := [("v1", "CREATE VIEW v1 AS SELECT 1")],
    procs := [("p1", "CREATE PROCEDURE p1 () SELECT 1")],
    indexes := [], syncLog := [] }

/-- Capabilities matching s5w exactly. -/
def env5w : Env :=
  { valid := fun _ => true,
    viewDef := fun _ => Except.ok (some "CREATE VIEW v1 AS SELECT 1"),
    procDef := fun _ => Except.ok (some "CREATE PROCEDURE p1 () SELECT 1") }

/-- Witness for the amended C5 on concrete identical objects. -/
theorem C5_witness :
    MySQLSync.synchronize_table env5w "t1" true "h" true s5w = (s5w, []) ∧
    MySQLSync.synchronize_view env5w "v1" true "h" true s5w =
      Except.ok (s5w, []) ∧
    MySQLSync.synchronize_procedure env5w "p1" true "h" false s5w =
      Except.ok (s5w, []) :=
  ⟨(C5_identical_is_noop env5w s5w).1 "t1" "CREATE TABLE t1 (id INT)"
      true "h" true (by decide),
   (C5_identical_is_noop env5w s5w).2.1 "v1" "CREATE VIEW v1 AS SELECT 1"
      true "h" true (by decide) (by decide),
   (C5_identical_is_noop env5w s5w).2.2 "p1" "CREATE PROCEDURE p1 () SELECT 1"
      true "h" (by decide) (by decide)⟩

/-- True when a capability result is not a non-vendor exception (the
vendor-specific except clauses catch vendor errors only). -/
def vendorOnly : Except PyErr (Option String) → Bool
  | Except.error (PyErr.other _) => false
  | _ => true

/-- An exception escapes synchronize_view only when the view capability
itself raised it, and then it is a non-vendor exception. -/
lemma synchronize_view_error_src (env : Env) (v : String) (a : Bool)
    (hsh : String) (c : Bool) (s : DBState) (e : PyErr)
    (h : MySQLSync.synchronize_view env v a hsh c s = Except.error e) :
    env.viewDef v = Except.error e ∧ vendorOnly (env.viewDef v) = false := by
  cases hvd : env.viewDef v with
  | error pe =>
    cases pe with
    | vendor m =>
      exfalso
      simp [MySQLSync.synchronize_view, hvd] at h
    | other m =>
      simp only [MySQLSync.synchronize_view, hvd] at h
      injection h with he
      subst he
      exact ⟨rfl, by simp [vendorOnly]⟩
  | ok sd =>
    exfalso
    simp only [MySQLSync.synchronize_view, hvd] at h
    repeat' split at h
    all_goals simp_all

/-- The per-view loop of synchronize_all_views runs to completion when no
enumerated view makes the capability raise a non-vendor exception. -/
lemma sync_views_loop_completes (env : Env) (a : Bool) (hsh : String) (c : Bool) :
    ∀ (l : List String) (s : DBState),
      (∀ v ∈ l, vendorOnly (env.viewDef v) = true) →
      (MySQLSync.sync_views_loop env a hsh c l s).2 = none := by
  intro l
  induction l with
  | nil => intro s _; rfl
  | cons v rest ih =>
    intro s H
    cases hsv : MySQLSync.synchronize_view env v a hsh c s with
    | ok pr =>
      simp only [MySQLSync.sync_views_loop, hsv]
      exact ih pr.1 (fun w hw => H w (List.mem_cons_of_mem _ hw))
    | error e =>
      exfalso
      have hsrc := synchronize_view_error_src env v a hsh c s e hsv
      have hv := H v (List.mem_cons_self v rest)
      rw [hsrc.2] at hv
      exact Bool.false_ne_true hv

/-- Claim C6 counterexample: the view capability for v1 raises a
non-vendor exception (in the script get_view_definition is an undefined
method, so the call raises AttributeError, which except MySQLError does
not catch).  synchronize_all_views propagates the exception to the
caller and the remaining view v2 — divergent as far as the capability is
concerned — is left untouched: the returned state is the input state
unchanged. -/
def env6 : Env :=
  { valid := fun _ => true,
    viewDef := fun v =>
      if v = "v1" then Except.error (PyErr.other "AttributeError: get_view_definition")
      else Except.ok (some "CREATE VIEW v2 AS SELECT 2"),
    procDef := fun _ => Except.ok none }

/-- Target with two views; v1 triggers the non-vendor exception first. -/
def s6db : DBState :=
  { tables := [], views := [("v1", "A"), ("v2", "B")],
    procs := [], indexes := [], syncLog := [] }

/-- Claim C6 counterexample theorem: the bulk view sync aborts with the
propagated non-vendor exception instead of isolating it and proceeding
to v2. -/
theorem C6_counterexample :
    MySQLSync.synchronize_all_views env6 false "h" false s6db =
      (s6db, some (PyErr.other "AttributeError: get_view_definition")) := by
  decide

/-- Claim C6 as amended: per-object isolation holds for vendor database
errors only — when no enumerated view makes the capability raise a
non-vendor exception, synchronize_all_views finishes the whole
enumeration and propagates nothing; a non-vendor exception such as the
AttributeError from the undefined get_view_definition method escapes the
vendor-specific except clauses, aborts the enumeration and reaches the
caller. -/
theorem C6_vendor_errors_isolated (env : Env) (a : Bool) (hsh : String)
    (c : Bool) (s : DBState)
    (H : ∀ v ∈ s.views.map (fun p => p.1), vendorOnly (env.viewDef v) = true) :
    (MySQLSync.synchronize_all_views env a hsh c s).2 = none := by
  have hl := sync_views_loop_completes env a hsh c (s.views.map (fun p => p.1)) s H
  cases hm : MySQLSync.sync_views_loop env a hsh c (s.views.map (fun p => p.1)) s with
  | mk s1 oe =>
    rw [hm] at hl
    simp only at hl
    subst hl
    simp [MySQLSync.synchronize_all_views, hm]

/-- Environment where v1 yields a vendor connection error and v2 a
normal result. -/
def env6w : Env :=
  { valid := fun _ => true,
    viewDef := fun v =>
      if v = "v1" then Except.error (PyErr.vendor "Lost connection to MySQL server")
      else Except.ok (some "CREATE VIEW v2 AS SELECT 2"),
    procDef := fun _ => Except.ok none }

/-- Witness for the amended C6: with only vendor errors in play the bulk
view sync completes and propagates nothing. -/
theorem C6_witness :
    (MySQLSync.synchronize_all_views env6w false "h" false s6db).2 = none :=
  C6_vendor_errors_isolated env6w false "h" false s6db (by decide)

/-- Capability reporting a null source definition for every view. -/
def env7 : Env :=
  { valid := fun _ => true,
    viewDef := fun _ => Except.ok none,
    procDef := fun _ => Except.ok none }

/-- Target where view v1 exists. -/
def s7db : DBState :=
  { tables := [], views := [("v1", "CREATE VIEW v1 AS SELECT 1")],
    procs := [], indexes := [], syncLog := [] }

/-- Claim C7 counterexample: the source definition of v1 comes back null,
yet no DefinitionUnavailable error is raised and the object is not
skipped: synchronize_view proceeds to the existence check and the
comparison, where null differs from the existing target text, and then
executes a DROP VIEW statement on the target, recreating nothing. -/
theorem C7_counterexample :
    env7.viewDef "v1" = Except.ok none ∧
    MySQLSync.synchronize_view env7 "v1" false "h" true s7db =
      Except.ok ({ s7db with views := [] }, ["DROP VIEW IF EXISTS v1"]) := by
  decide

/-- Claim C7 as amended: there is no DefinitionUnavailable fail-fast — a
null source definition flows into the normal existence check and
comparison; in particular, for any existing target view whose source
definition comes back null, synchronize_view drops the target view and
recreates nothing, for every flag combination. -/
theorem C7_null_source_drops_view (env : Env) (v : String) (a : Bool)
    (hsh : String) (c : Bool) (s : DBState) (d : String)
    (h1 : env.viewDef v = Except.ok none)
    (h2 : lookupDef s.views v = some d) :
    MySQLSync.synchronize_view env v a hsh c s =
      Except.ok ({ s with views := removeDef s.views v },
        ["DROP VIEW IF EXISTS " ++ v]) := by
  simp [MySQLSync.synchronize_view, h1, h2]

/-- Witness for the amended C7 at the concrete state. -/
theorem C7_witness :
    MySQLSync.synchronize_view env7 "v1" false "h" true s7db =
      Except.ok ({ s7db with views := removeDef s7db.views "v1" },
        ["DROP VIEW IF EXISTS " ++ "v1"]) :=
  C7_null_source_drops_view env7 "v1" false "h" true s7db
    "CREATE VIEW v1 AS SELECT 1" (by decide) (by decide)

/-- Accepting validator with inert capabilities, for the index runs. -/
def env8 : Env :=
  { valid := fun _ => true,
    viewDef := fun _ => Except.ok none,
    procDef := fun _ => Except.ok none }

/-- The pg_indexes row backing the primary key of table t: pg_indexes
lists it like any other index, storing its CREATE UNIQUE INDEX text. -/
def row8 : IndexRow :=
  { key_name := "t_pkey", column_name := "id", is_primary := true,
    indexdef := "CREATE UNIQUE INDEX t_pkey ON t (id)" }

/-- Target whose only index row for t is the primary-key index. -/
def s8db : DBState :=
  { tables := [("t", "CREATE TABLE t (id INT)")], views := [], procs := [],
    indexes := [("t", row8)], syncLog := [] }

/-- Claim C8 counterexample: the PostgreSQL index pass applies no
primary-key filter — the enumeration row for the index backing the
primary key of t is turned into an executed statement. -/
theorem C8_counterexample :
    row8.is_primary = true ∧
    PostgreSQLSync.synchronize_indexes env8 "t" s8db = [row8.indexdef] := by
  decide

/-- Claim C8 as amended: index synchronization is additive-only in both
adapters — every executed statement is a CREATE INDEX statement built
from an enumerated row (MySQL) or the stored indexdef text of an
enumerated row (PostgreSQL), and no DROP is ever issued; but only the
MySQL adapter excludes primary-key rows (key name PRIMARY), while the
PostgreSQL adapter enumerates pg_indexes rows with no primary-key
filter. -/
theorem C8_index_sync_additive (env : Env) (table : String) (s : DBState) :
    (∀ stmt ∈ MySQLSync.synchronize_indexes env table s,
      ∃ p ∈ s.indexes, p.1 = table ∧ p.2.key_name ≠ "PRIMARY" ∧
        stmt = "CREATE INDEX " ++ p.2.key_name ++ " ON " ++ table ++
          " (" ++ p.2.column_name ++ ")") ∧
    (∀ stmt ∈ PostgreSQLSync.synchronize_indexes env table s,
      ∃ p ∈ s.indexes, p.1 = table ∧ stmt = p.2.indexdef) := by
  constructor
  · intro stmt hmem
    unfold MySQLSync.synchronize_indexes at hmem
    rw [List.mem_filterMap] at hmem
    obtain ⟨idx, hidx, hsome⟩ := hmem
    rw [List.mem_map] at hidx
    obtain ⟨p, hp, rfl⟩ := hidx
    rw [List.mem_filter] at hp
    obtain ⟨hps, hpt⟩ := hp
    have hpt2 : p.1 = table := by simpa using hpt
    split at hsome
    · rename_i hkey
      split at hsome
      · injection hsome with hs
        exact ⟨p, hps, hpt2, hkey, hs.symm⟩
      · simp at hsome
    · simp at hsome
  · intro stmt hmem
    unfold PostgreSQLSync.synchronize_indexes at hmem
    rw [List.mem_filterMap] at hmem
    obtain ⟨idx, hidx, hsome⟩ := hmem
    rw [List.mem_map] at hidx
    obtain ⟨p, hp, rfl⟩ := hidx
    rw [List.mem_filter] at hp
    obtain ⟨hps, hpt⟩ := hp
    have hpt2 : p.1 = table := by simpa using hpt
    split at hsome
    · injection hsome with hs
      exact ⟨p, hps, hpt2, hs.symm⟩
    · simp at hsome

/-- An ordinary secondary-index row for table t. -/
def row8w : IndexRow :=
  { key_name := "idx_name", column_name := "name", is_primary := false,
    indexdef := "CREATE INDEX idx_name ON t (name)" }

/-- Target whose only index row for t is the secondary index. -/
def s8w : DBState :=
  { tables := [("t", "CREATE TABLE t (id INT, name TEXT)")], views := [],
    procs := [], indexes := [("t", row8w)], syncLog := [] }

/-- Witness for the amended C8 on the concrete secondary index. -/
theorem C8_witness :
    (∃ p ∈ s8w.indexes, p.1 = "t" ∧ p.2.key_name ≠ "PRIMARY" ∧
      "CREATE INDEX idx_name ON t (name)" =
        "CREATE INDEX " ++ p.2.key_name ++ " ON " ++ "t" ++
          " (" ++ p.2.column_name ++ ")") ∧
    (∃ p ∈ s8w.indexes, p.1 = "t" ∧
      "CREATE INDEX idx_name ON t (name)" = p.2.indexdef) :=
  ⟨(C8_index_sync_additive env8 "t" s8w).1
      "CREATE INDEX idx_name ON t (name)" (by decide),
   (C8_index_sync_additive env8 "t" s8w).2
      "CREATE INDEX idx_name ON t (name)" (by decide)⟩

/-- Argument namespace missing the source configuration path. -/
def argsMissing : Args :=
  { source_config := none, source_db_type := some "mysql",
    target_configs := some "targets.json" }

/-- Argument namespace with all required configuration inputs. -/
def argsFull : Args :=
  { source_config := some "source.json", source_db_type := some "mysql",
    target_configs := some "targets.json" }

/-- Claim C9 counterexample: with the source configuration missing, main
logs an error and returns — the process exits zero, not non-zero; and
when a per-target connection failure is re-raised by connect(), the
exception propagates uncaught out of main and the process exits
non-zero. -/
theorem C9_counterexample :
    main_outcome argsMissing (Except.ok ()) = MainOutcome.exitZero ∧
    (main_outcome argsFull
      (Except.error (PyErr.vendor "Error connecting to MySQL"))).isNonZero = true := by
  decide

/-- Claim C9 as amended: the process exits zero when a required
configuration input is missing (the error is only logged), and exits
non-zero exactly when the configuration is complete and an exception —
such as an unreadable configuration file or a target connection failure
re-raised by connect — propagates out of the body of main. -/
theorem C9_exit_nonzero_iff (args : Args) (body : Except PyErr Unit) :
    (main_outcome args body).isNonZero = true ↔
      ((args.source_config.isSome && args.source_db_type.isSome &&
        args.target_configs.isSome) = true ∧ ∃ e, body = Except.error e) := by
  by_cases hc : (args.source_config.isSome && args.source_db_type.isSome &&
      args.target_configs.isSome) = true
  · cases body <;> simp [main_outcome, hc, MainOutcome.isNonZero]
  · cases body <;> simp [main_outcome, hc, MainOutcome.isNonZero]
